import Mathlib

/-!
Shallow embedding of the frame-lifecycle core of the `bg-engine` renderer
(`src/lve_renderer.cpp`, `src/game_object.hpp`, `src/first_app.cpp`).

The external collaborators (window, Vulkan device, swap chain backend) are
modelled as explicit inputs: the swap-chain statuses returned by
`acquireNextImage` / `submitCommandBuffers` and the stream of window extents
polled during a rebuild are parameters of each operation.  The observable
side effects of a rebuild (event polling, device-idle wait, chain
construction, start of command-buffer recording) are recorded in an event
trace so that temporal claims can be stated about them.
-/

/-- A pixel extent as reported by `LveWindow::getExtent()` (uint32 pair). -/
structure Extent where
  width : Nat
  height : Nat
deriving DecidableEq, Repr

/-- The loop guard of `recreateSwapChain`: `0 == extent.width || 0 == extent.height`. -/
def extentZero (e : Extent) : Bool :=
  e.width == 0 || e.height == 0

/-- The `VkResult` statuses the renderer distinguishes.  Every status other
than success / suboptimal / out-of-date is collapsed into `otherError`. -/
inductive VkResult where
  | success
  | suboptimalKHR
  | errorOutOfDateKHR
  | otherError (code : Int)
deriving DecidableEq, Repr

/-- Modelled from the spec: a Presentation Chain "records the pixel format
and color space it was built for"; `LveSwapChain` itself is not among the
given sources, so a chain is represented by its color image format and
depth format (as numeric codes). -/
structure SwapChain where
  imageFormat : Nat
  depthFormat : Nat
deriving DecidableEq, Repr

/-- Modelled from the spec: `LveSwapChain::compareSwapFormats` "compares
color/depth image formats against another chain". -/
def compareSwapFormats (a b : SwapChain) : Bool :=
  a.imageFormat == b.imageFormat && a.depthFormat == b.depthFormat

/-- The part of `LveWindow` the renderer reads: the external resize
notification flag (`wasWindowResized` / `resetWindowResizedFlag`). -/
structure WindowState where
  framebufferResized : Bool
deriving DecidableEq, Repr

/-- The mutable members of `LveRenderer`. -/
structure RendererState where
  isFrameStarted : Bool
  currentFrameIndex : Nat
  currentImageIndex : Nat
  commandBuffers : List Nat
  swapChain : SwapChain
  window : WindowState
deriving DecidableEq, Repr

/-- Observable events of the renderer's side effects. -/
inductive REvent where
  | getExtent (e : Extent)
  | waitEvents
  | deviceWaitIdle
  | constructChain (e : Extent)
  | beginRecording (cb : Nat)
deriving DecidableEq, Repr

/-- The `while (0 == extent.width || 0 == extent.height)` loop of
`recreateSwapChain`: keeps re-polling `getExtent` and calling
`glfwWaitEvents` until the extent is non-zero.  The remaining stream of
extents the window will report is explicit; `none` means the stream ran out
while the extent was still zero (the loop would still be spinning). -/
def pollLoop (e : Extent) (stream : List Extent) (acc : List REvent) :
    Option (Extent × List REvent) :=
  if extentZero e then
    match stream with
    | [] => none
    | e2 :: rest => pollLoop e2 rest (acc ++ [REvent.getExtent e2, REvent.waitEvents])
  else
    some (e, acc)

/-- The tail of `recreateSwapChain` once a non-zero extent is at hand: the
branch on `lveSwapChain == nullptr`, construction of the new chain, and the
`compareSwapFormats` check whose failure throws.  Returns the chain now
installed in the member `lveSwapChain` and `some msg` when the check throws
(the new chain is installed before the check). -/
def installChain (old : Option SwapChain) (fresh : SwapChain) :
    SwapChain × Option String :=
  match old with
  | none => (fresh, none)
  | some o =>
    if compareSwapFormats o fresh then
      (fresh, none)
    else
      (fresh, some "Swap chain Image or depth format has changed")

/-- `LveRenderer::recreateSwapChain`.  `extents` is the stream of values
successive `getExtent()` calls return; `old` is the current chain
(`none` models the very first construction); `fresh` is the chain the
backend would build for the final extent.  Returns the event trace, the
installed chain, and `some msg` when the format check throws. -/
def recreateSwapChain (extents : List Extent) (old : Option SwapChain)
    (fresh : SwapChain) : Option (List REvent × SwapChain × Option String) :=
  match extents with
  | [] => none
  | e :: rest =>
    (pollLoop e rest [REvent.getExtent e]).map fun p =>
      (p.2 ++ [REvent.deviceWaitIdle, REvent.constructChain p.1],
        (installChain old fresh).1, (installChain old fresh).2)

/-- Outcome of a renderer member function.  `fatal` models a thrown
`std::runtime_error` and carries the values the renderer's members hold at
the throw point; `assertFail` models a failed `assert` (process abort);
`stuck` means the extent stream ran out inside the rebuild poll loop. -/
inductive Outcome (α : Type) where
  | ok : α → Outcome α
  | assertFail : String → Outcome α
  | fatal : String → RendererState → Outcome α
  | stuck : Outcome α
deriving DecidableEq, Repr

/-- `LveRenderer::getCurentCommandBuffer`: `commandBuffers[currentFrameIndex]`. -/
def getCurentCommandBuffer (st : RendererState) : Nat :=
  st.commandBuffers.getD st.currentFrameIndex 0

/-- Environment inputs consumed by one `beginFrame` call. -/
structure AcquireEnv where
  acquireResult : VkResult
  imageIndex : Nat
  beginCBOk : Bool
  extents : List Extent
  freshChain : SwapChain
deriving Repr

/-- Environment inputs consumed by one `endFrame` call. -/
structure SubmitEnv where
  endCBOk : Bool
  submitResult : VkResult
  extents : List Extent
  freshChain : SwapChain
deriving Repr

/-- `LveRenderer::beginFrame`.  Returns the event trace and either the new
state paired with the returned `VkCommandBuffer` (`none` = `nullptr`), or a
failure outcome. -/
def beginFrame (env : AcquireEnv) (st : RendererState) :
    List REvent × Outcome (RendererState × Option Nat) :=
  if st.isFrameStarted then
    ([], .assertFail "cannot call beginFrame while already in progress")
  else if env.acquireResult = .errorOutOfDateKHR then
    match recreateSwapChain env.extents (some st.swapChain) env.freshChain with
    | none => ([], .stuck)
    | some (tr, sc, some msg) => (tr, .fatal msg { st with swapChain := sc })
    | some (tr, sc, none) => (tr, .ok ({ st with swapChain := sc }, none))
  else if env.acquireResult ≠ .success ∧ env.acquireResult ≠ .suboptimalKHR then
    ([], .fatal "failed to acquire swap chain image!" st)
  else
    let st1 := { st with currentImageIndex := env.imageIndex, isFrameStarted := true }
    let cb := getCurentCommandBuffer st1
    if env.beginCBOk then
      ([REvent.beginRecording cb], .ok (st1, some cb))
    else
      ([], .fatal "failed to begin recording command buffer!" st1)

/-- The two final assignments of a normally-returning `endFrame`. -/
def finishFrame (F : Nat) (st : RendererState) : RendererState :=
  { st with
    isFrameStarted := false
    currentFrameIndex := (st.currentFrameIndex + 1) % F }

/-- `LveRenderer::endFrame`.  `F` is `LveSwapChain::MAX_FRAMES_IN_FLIGHT`
(its defining header is not among the given sources, so the value is kept
abstract).  Faithful to the source: the rebuild `if` is *not* chained with
an `else` to the `result != VK_SUCCESS` check, so an out-of-date or
suboptimal submit status rebuilds the chain and then still throws. -/
def endFrame (F : Nat) (env : SubmitEnv) (st : RendererState) :
    List REvent × Outcome RendererState :=
  if ¬ st.isFrameStarted then
    ([], .assertFail "cannot call end frame while frame is not in progress")
  else if ¬ env.endCBOk then
    ([], .fatal "failed to record command buffer!" st)
  else if env.submitResult = .errorOutOfDateKHR ∨ env.submitResult = .suboptimalKHR ∨
      st.window.framebufferResized then
    let st1 := { st with window := { framebufferResized := false } }
    match recreateSwapChain env.extents (some st1.swapChain) env.freshChain with
    | none => ([], .stuck)
    | some (tr, sc, some msg) => (tr, .fatal msg { st1 with swapChain := sc })
    | some (tr, sc, none) =>
      let st2 := { st1 with swapChain := sc }
      if env.submitResult ≠ .success then
        (tr, .fatal "failed to submit command buffers!" st2)
      else
        (tr, .ok (finishFrame F st2))
  else if env.submitResult ≠ .success then
    ([], .fatal "failed to submit command buffers!" st)
  else
    ([], .ok (finishFrame F st))

/-- `LveRenderer::beginSwapChainRenderPass`: two guarding assertions, then
pure Vulkan recording commands (no renderer member is written). -/
def beginSwapChainRenderPass (cb : Nat) (st : RendererState) : Outcome RendererState :=
  if ¬ st.isFrameStarted then
    .assertFail "cannot call beginSwapChainRenderPass if frame is not in progress"
  else if cb ≠ getCurentCommandBuffer st then
    .assertFail "cant begin render pass on command buffer froma different frame"
  else
    .ok st

/-- `LveRenderer::endSwapChainRenderPass`: same guard structure. -/
def endSwapChainRenderPass (cb : Nat) (st : RendererState) : Outcome RendererState :=
  if ¬ st.isFrameStarted then
    .assertFail "cannot call endSwapChainRenderPass if frame is not in progress"
  else if cb ≠ getCurentCommandBuffer st then
    .assertFail "cant end render pass on command buffer froma different frame"
  else
    .ok st

/-- One call the application can make on the orchestrator, with the
environment inputs it consumes. -/
inductive RenderOp where
  | opBeginFrame (env : AcquireEnv)
  | opBeginRP (cb : Nat)
  | opEndRP (cb : Nat)
  | opEndFrame (env : SubmitEnv)

/-- State transition of one orchestrator call (the buffer `beginFrame`
returns is not part of the orchestrator state). -/
def step (F : Nat) (st : RendererState) : RenderOp → Outcome RendererState
  | .opBeginFrame env =>
    match (beginFrame env st).2 with
    | .ok (st', _) => .ok st'
    | .assertFail m => .assertFail m
    | .fatal m s => .fatal m s
    | .stuck => .stuck
  | .opBeginRP cb => beginSwapChainRenderPass cb st
  | .opEndRP cb => endSwapChainRenderPass cb st
  | .opEndFrame env => (endFrame F env st).2

/-- Run a sequence of orchestrator calls, stopping at the first failure. -/
def runOps (F : Nat) (st : RendererState) : List RenderOp → Outcome RendererState
  | [] => .ok st
  | op :: rest =>
    match step F st op with
    | .ok st' => runOps F st' rest
    | .assertFail m => .assertFail m
    | .fatal m s => .fatal m s
    | .stuck => .stuck

/-- A 3-component vector with exact rational entries (the shallow embedding
of `glm::vec3`; the float literals used by the program are exactly
representable). -/
structure Vec3 where
  x : ℚ
  y : ℚ
  z : ℚ
deriving DecidableEq, Repr

/-- `TransformComponent` of `src/game_object.hpp`: translation, scale
(default `{1,1,1}`), rotation (default zero). -/
structure TransformComponent where
  translation : Vec3
  scale : Vec3 := ⟨1, 1, 1⟩
  rotation : Vec3 := ⟨0, 0, 0⟩
deriving DecidableEq, Repr

/-- Homogeneous translation matrix (column-vector convention: the
translation sits in the last column). -/
def translateMat (t : Vec3) : Matrix (Fin 4) (Fin 4) ℚ :=
  !![1, 0, 0, t.x; 0, 1, 0, t.y; 0, 0, 1, t.z; 0, 0, 0, 1]

/-- Rotation about Y by an angle with sine `s` and cosine `c`. -/
def rotYMat (s c : ℚ) : Matrix (Fin 4) (Fin 4) ℚ :=
  !![c, 0, s, 0; 0, 1, 0, 0; -s, 0, c, 0; 0, 0, 0, 1]

/-- Rotation about X by an angle with sine `s` and cosine `c`. -/
def rotXMat (s c : ℚ) : Matrix (Fin 4) (Fin 4) ℚ :=
  !![1, 0, 0, 0; 0, c, -s, 0; 0, s, c, 0; 0, 0, 0, 1]

/-- Rotation about Z by an angle with sine `s` and cosine `c`. -/
def rotZMat (s c : ℚ) : Matrix (Fin 4) (Fin 4) ℚ :=
  !![c, -s, 0, 0; s, c, 0, 0; 0, 0, 1, 0; 0, 0, 0, 1]

/-- Homogeneous non-uniform scale matrix. -/
def scaleMat (v : Vec3) : Matrix (Fin 4) (Fin 4) ℚ :=
  !![v.x, 0, 0, 0; 0, v.y, 0, 0; 0, 0, v.z, 0; 0, 0, 0, 1]

/-- Modelled from the spec: `TransformComponent::mat4` (its defining
translation unit is not among the given sources; `src/game_object.hpp`
documents it as "Matrix corrsponds to Translate * Ry * Rx * Rz * Scale",
Tait-Bryan Y-X-Z).  Sine and cosine are passed in as abstract functions
`sn`, `cs` so the definition stays exact over ℚ. -/
def TransformComponent.mat4 (sn cs : ℚ → ℚ) (t : TransformComponent) :
    Matrix (Fin 4) (Fin 4) ℚ :=
  translateMat t.translation *
    rotYMat (sn t.rotation.y) (cs t.rotation.y) *
    rotXMat (sn t.rotation.x) (cs t.rotation.x) *
    rotZMat (sn t.rotation.z) (cs t.rotation.z) *
    scaleMat t.scale

/-- The transform `FirstApp::loadGameObjects` gives the vase object:
`translation = {.0f, 0.5f, 2.5f}`, `scale = glm::vec3(3.f)`, rotation left
at its default. -/
def vaseTransform : TransformComponent :=
  { translation := ⟨0, 1/2, 5/2⟩, scale := ⟨3, 3, 3⟩ }

/-- Modulus of C++ `unsigned int` arithmetic (the renderer targets the
usual 32-bit `unsigned int`); `LveGameObject::id_t = unsigned int`. -/
def uintMod : Nat := 2 ^ 32

/-- A drawable object, reduced to the identity the claims are about. -/
structure LveGameObject where
  id : Nat
deriving DecidableEq, Repr

/-- `LveGameObject::createGameObject` body: `return LveGameObject{currentId++}`
on a `static id_t currentId = 0`.  The static counter is passed explicitly;
the post-increment wraps as `unsigned int` arithmetic does. -/
def createGameObject (currentId : Nat) : LveGameObject × Nat :=
  ({ id := currentId }, (currentId + 1) % uintMod)

/-- Value of the static counter after `n` calls in one process (it starts
at 0). -/
def counterAfter : Nat → Nat
  | 0 => 0
  | n + 1 => (createGameObject (counterAfter n)).2

/-- The id returned by the `k`-th call (0-based) to `createGameObject`
within one process. -/
def idOfCreation (k : Nat) : Nat :=
  (createGameObject (counterAfter k)).1.id

/-- Events that may occur while the rebuild procedure is still waiting for
a usable surface: extent polls and event waits, nothing else. -/
def pollEvent : REvent → Bool
  | .getExtent _ => true
  | .waitEvents => true
  | _ => false

lemma pollLoop_sound :
    ∀ (stream : List Extent) (e : Extent) (acc : List REvent)
      (fin : Extent) (tr : List REvent),
      pollLoop e stream acc = some (fin, tr) →
      ∃ suffix, tr = acc ++ suffix ∧ extentZero fin = false ∧
        (∀ ev ∈ suffix, pollEvent ev = true) ∧
        (∀ e2, REvent.getExtent e2 ∈ suffix → extentZero e2 = true ∨ e2 = fin) ∧
        (extentZero e = true ∨ e = fin) := by
  intro stream
  induction stream with
  | nil =>
    intro e acc fin tr h
    unfold pollLoop at h
    by_cases hz : extentZero e
    · simp [hz] at h
    · simp [hz] at h
      refine ⟨[], by simp [h.2.symm], ?_, by simp, by simp, Or.inr h.1⟩
      rw [← h.1]
      simpa using hz
  | cons e2 rest ih =>
    intro e acc fin tr h
    unfold pollLoop at h
    by_cases hz : extentZero e
    · simp only [hz, if_true] at h
      obtain ⟨suffix, h1, h2, h3, h4, h5⟩ :=
        ih e2 (acc ++ [REvent.getExtent e2, REvent.waitEvents]) fin tr h
      refine ⟨[REvent.getExtent e2, REvent.waitEvents] ++ suffix,
        by simp [h1], h2, ?_, ?_, Or.inl (by simpa using hz)⟩
      · intro ev hev
        rcases List.mem_append.mp hev with hl | hr
        · simp at hl
          rcases hl with rfl | rfl <;> rfl
        · exact h3 ev hr
      · intro e3 hev
        rcases List.mem_append.mp hev with hl | hr
        · simp at hl
          exact hl ▸ h5
        · exact h4 e3 hr
    · simp [hz] at h
      refine ⟨[], by simp [h.2.symm], ?_, by simp, by simp, Or.inr h.1⟩
      rw [← h.1]
      simpa using hz

lemma installChain_fst (old : Option SwapChain) (fresh : SwapChain) :
    (installChain old fresh).1 = fresh := by
  cases old with
  | none => rfl
  | some o =>
    unfold installChain
    by_cases hc : compareSwapFormats o fresh <;> simp [hc]

lemma installChain_snd (old : Option SwapChain) (fresh : SwapChain) :
    ((installChain old fresh).2 ≠ none ↔
      ∃ o, old = some o ∧ compareSwapFormats o fresh = false) ∧
    ∀ m, (installChain old fresh).2 = some m →
      m = "Swap chain Image or depth format has changed" := by
  cases old with
  | none => simp [installChain]
  | some o =>
    unfold installChain
    by_cases hc : compareSwapFormats o fresh <;> simp [hc]

lemma recreateSwapChain_eq_some
    (extents : List Extent) (old : Option SwapChain) (fresh : SwapChain)
    (tr : List REvent) (sc : SwapChain) (err : Option String)
    (h : recreateSwapChain extents old fresh = some (tr, sc, err)) :
    ∃ e rest fin trp, extents = e :: rest ∧
      pollLoop e rest [REvent.getExtent e] = some (fin, trp) ∧
      tr = trp ++ [REvent.deviceWaitIdle, REvent.constructChain fin] ∧
      sc = (installChain old fresh).1 ∧ err = (installChain old fresh).2 := by
  cases extents with
  | nil => exact absurd h (by simp [recreateSwapChain])
  | cons e rest =>
    cases hp : pollLoop e rest [REvent.getExtent e] with
    | none =>
      rw [recreateSwapChain, hp] at h
      exact absurd h (by simp)
    | some p =>
      obtain ⟨fin, trp⟩ := p
      rw [recreateSwapChain, hp] at h
      simp only [Option.map_some', Option.some.injEq, Prod.mk.injEq] at h
      exact ⟨e, rest, fin, trp, rfl, hp, h.1.symm, h.2.1.symm, h.2.2.symm⟩

lemma recreateSwapChain_sound
    (extents : List Extent) (old : Option SwapChain) (fresh : SwapChain)
    (tr : List REvent) (sc : SwapChain) (err : Option String)
    (h : recreateSwapChain extents old fresh = some (tr, sc, err)) :
    ∃ pre fin, tr = pre ++ [REvent.deviceWaitIdle, REvent.constructChain fin] ∧
      extentZero fin = false ∧
      (∀ ev ∈ pre, pollEvent ev = true) ∧
      (∀ e2, REvent.getExtent e2 ∈ pre → extentZero e2 = true ∨ e2 = fin) := by
  obtain ⟨e, rest, fin, trp, _, hp, htr, _, _⟩ :=
    recreateSwapChain_eq_some extents old fresh tr sc err h
  obtain ⟨suffix, h1, h2, h3, h4, h5⟩ := pollLoop_sound rest e [REvent.getExtent e] fin trp hp
  refine ⟨trp, fin, htr, h2, ?_, ?_⟩
  · intro ev hev
    rw [h1] at hev
    rcases List.mem_append.mp hev with hl | hr
    · simp at hl
      rw [hl]
      rfl
    · exact h3 ev hr
  · intro e2 hev
    rw [h1] at hev
    rcases List.mem_append.mp hev with hl | hr
    · simp at hl
      exact hl ▸ h5
    · exact h4 e2 hr

/-- C5: in every terminating execution of the rebuild procedure
(`recreateSwapChain`) the event trace decomposes as a polling prefix
(extent polls and `glfwWaitEvents` calls only — no GPU wait, no chain
construction), followed by the wait for all outstanding GPU work
(`vkDeviceWaitIdle`), followed only then by construction of the new chain;
the extent the chain is built for is non-zero, and no non-zero extent was
polled before it. -/
theorem c5_rebuild_waits_for_nonzero_extent
    (extents : List Extent) (old : Option SwapChain) (fresh : SwapChain)
    (tr : List REvent) (sc : SwapChain) (err : Option String)
    (h : recreateSwapChain extents old fresh = some (tr, sc, err)) :
    ∃ pre fin,
      tr = pre ++ [REvent.deviceWaitIdle, REvent.constructChain fin] ∧
      extentZero fin = false ∧
      (∀ ev ∈ pre, pollEvent ev = true) ∧
      (∀ e2, REvent.getExtent e2 ∈ pre → extentZero e2 = true ∨ e2 = fin) :=
  recreateSwapChain_sound extents old fresh tr sc err h

/-- C5 witness: the spec's simulated scenario — the surface reports
extent (0,0), (0,0), then (800,600); the rebuild procedure's trace is as
described by the theorem (in particular no chain construction occurs
before the (800,600) transition). -/
theorem c5_rebuild_waits_witness :
    ∃ pre fin,
      [REvent.getExtent ⟨0,0⟩, REvent.getExtent ⟨0,0⟩, REvent.waitEvents,
       REvent.getExtent ⟨800,600⟩, REvent.waitEvents,
       REvent.deviceWaitIdle, REvent.constructChain ⟨800,600⟩] =
        pre ++ [REvent.deviceWaitIdle, REvent.constructChain fin] ∧
      extentZero fin = false ∧
      (∀ ev ∈ pre, pollEvent ev = true) ∧
      (∀ e2, REvent.getExtent e2 ∈ pre → extentZero e2 = true ∨ e2 = fin) :=
  c5_rebuild_waits_for_nonzero_extent
    [⟨0,0⟩, ⟨0,0⟩, ⟨800,600⟩] (some ⟨1,2⟩) ⟨1,2⟩ _ ⟨1,2⟩ none rfl

/-- C6: whenever the rebuild procedure runs, the fatal "formats changed"
error is raised exactly when there was a predecessor chain whose
color/depth formats differ from the newly built chain's; the error message
is the descriptive one, and the newly built chain is the one installed. -/
theorem c6_format_mismatch_fatal
    (extents : List Extent) (old : Option SwapChain) (fresh : SwapChain)
    (tr : List REvent) (sc : SwapChain) (err : Option String)
    (h : recreateSwapChain extents old fresh = some (tr, sc, err)) :
    (err ≠ none ↔ ∃ o, old = some o ∧ compareSwapFormats o fresh = false) ∧
    (∀ m, err = some m → m = "Swap chain Image or depth format has changed") ∧
    sc = fresh := by
  obtain ⟨e, rest, fin, trp, _, _, _, hsc, herr⟩ :=
    recreateSwapChain_eq_some extents old fresh tr sc err h
  subst hsc
  subst herr
  obtain ⟨hiff, hmsg⟩ := installChain_snd old fresh
  exact ⟨hiff, hmsg, installChain_fst old fresh⟩

/-- C6 witness: a rebuild migrating from a chain with formats (1,2) to one
with formats (3,2) raises the descriptive fatal error (and one with equal
formats would not, per the theorem's iff). -/
theorem c6_format_mismatch_witness :
    ((some "Swap chain Image or depth format has changed" ≠ (none : Option String)) ↔
      ∃ o, (some (⟨1,2⟩ : SwapChain) = some o ∧
        compareSwapFormats o ⟨3,2⟩ = false)) ∧
    (∀ m, (some "Swap chain Image or depth format has changed" = some m) →
      m = "Swap chain Image or depth format has changed") ∧
    (⟨3,2⟩ : SwapChain) = ⟨3,2⟩ :=
  c6_format_mismatch_fatal [⟨800,600⟩] (some ⟨1,2⟩) ⟨3,2⟩
    [REvent.getExtent ⟨800,600⟩, REvent.deviceWaitIdle,
     REvent.constructChain ⟨800,600⟩]
    ⟨3,2⟩ (some "Swap chain Image or depth format has changed") rfl

/-- A concrete idle renderer state used by witnesses. -/
def stIdle : RendererState :=
  { isFrameStarted := false, currentFrameIndex := 0, currentImageIndex := 0,
    commandBuffers := [10, 11], swapChain := ⟨1, 2⟩, window := ⟨false⟩ }

/-- A concrete acquire environment reporting success. -/
def envAcquireOk : AcquireEnv :=
  { acquireResult := .success, imageIndex := 1, beginCBOk := true,
    extents := [⟨800, 600⟩], freshChain := ⟨1, 2⟩ }

/-- A concrete acquire environment reporting out-of-date, with a benign
rebuild environment (non-zero extent, matching formats). -/
def envAcquireOod : AcquireEnv :=
  { acquireResult := .errorOutOfDateKHR, imageIndex := 0, beginCBOk := true,
    extents := [⟨800, 600⟩], freshChain := ⟨1, 2⟩ }

/-- C2: from the Idle state (`isFrameStarted = false`): out-of-date from
acquire rebuilds the chain and returns the null command buffer; any status
other than success/suboptimal/out-of-date throws the fatal acquire error;
success or suboptimal begins recording on the current frame slot's buffer
and returns that (non-null) buffer. -/
theorem c2_beginFrame_cases (env : AcquireEnv) (st : RendererState)
    (h : st.isFrameStarted = false) :
    (∀ tr sc, env.acquireResult = .errorOutOfDateKHR →
      recreateSwapChain env.extents (some st.swapChain) env.freshChain =
        some (tr, sc, none) →
      beginFrame env st = (tr, .ok ({ st with swapChain := sc }, none))) ∧
    (env.acquireResult ≠ .success → env.acquireResult ≠ .suboptimalKHR →
      env.acquireResult ≠ .errorOutOfDateKHR →
      beginFrame env st = ([], .fatal "failed to acquire swap chain image!" st)) ∧
    ((env.acquireResult = .success ∨ env.acquireResult = .suboptimalKHR) →
      env.beginCBOk = true →
      beginFrame env st =
        ([REvent.beginRecording (getCurentCommandBuffer
            { st with currentImageIndex := env.imageIndex, isFrameStarted := true })],
          .ok ({ st with currentImageIndex := env.imageIndex, isFrameStarted := true },
            some (getCurentCommandBuffer
              { st with currentImageIndex := env.imageIndex, isFrameStarted := true })))) := by
  refine ⟨?_, ?_, ?_⟩
  · intro tr sc hood hrec
    unfold beginFrame
    rw [hood]
    simp [h, hrec]
  · intro h1 h2 h3
    unfold beginFrame
    simp [h, h1, h2, h3]
  · intro hok hcb
    unfold beginFrame
    rcases hok with hs | hs <;> rw [hs] <;> simp [h, hcb]

/-- C2 witness: in the concrete idle state, a successful acquire begins
recording on frame slot 0's buffer (handle 10) and returns it. -/
theorem c2_beginFrame_witness :
    beginFrame envAcquireOk stIdle =
      ([REvent.beginRecording (getCurentCommandBuffer
          { stIdle with currentImageIndex := envAcquireOk.imageIndex,
                        isFrameStarted := true })],
        .ok ({ stIdle with currentImageIndex := envAcquireOk.imageIndex,
                           isFrameStarted := true },
          some (getCurentCommandBuffer
            { stIdle with currentImageIndex := envAcquireOk.imageIndex,
                          isFrameStarted := true }))) :=
  (c2_beginFrame_cases envAcquireOk stIdle rfl).2.2 (Or.inl rfl) rfl

/-- C10: when `beginFrame` returns the no-frame value because acquire
reported out-of-date, the resulting state is exactly the old state with
only the swap chain replaced (`isFrameStarted` still false, frame index
and image index untouched), and no command-buffer recording was begun. -/
theorem c10_beginFrame_ood_only_rebuilds
    (env : AcquireEnv) (st : RendererState) (tr : List REvent) (sc : SwapChain)
    (h : st.isFrameStarted = false)
    (hood : env.acquireResult = .errorOutOfDateKHR)
    (hrec : recreateSwapChain env.extents (some st.swapChain) env.freshChain =
      some (tr, sc, none)) :
    beginFrame env st = (tr, .ok ({ st with swapChain := sc }, none)) ∧
    ({ st with swapChain := sc } : RendererState).isFrameStarted = false ∧
    ({ st with swapChain := sc } : RendererState).currentFrameIndex =
      st.currentFrameIndex ∧
    ({ st with swapChain := sc } : RendererState).currentImageIndex =
      st.currentImageIndex ∧
    ({ st with swapChain := sc } : RendererState).window = st.window ∧
    ({ st with swapChain := sc } : RendererState).commandBuffers =
      st.commandBuffers ∧
    (∀ cb, REvent.beginRecording cb ∉ tr) := by
  have heq : beginFrame env st = (tr, .ok ({ st with swapChain := sc }, none)) := by
    unfold beginFrame
    rw [hood]
    simp [h, hrec]
  refine ⟨heq, h, rfl, rfl, rfl, rfl, ?_⟩
  intro cb hmem
  obtain ⟨pre, fin, htr, _, hpoll, _⟩ :=
    recreateSwapChain_sound env.extents (some st.swapChain) env.freshChain
      tr sc none hrec
  rw [htr] at hmem
  rcases List.mem_append.mp hmem with hl | hr
  · exact absurd (hpoll _ hl) (by simp [pollEvent])
  · simp at hr

/-- C10 witness: concrete out-of-date acquire in the idle state returns
no frame and only replaces the chain. -/
theorem c10_beginFrame_ood_witness :
    beginFrame envAcquireOod stIdle =
      ([REvent.getExtent ⟨800, 600⟩, REvent.deviceWaitIdle,
        REvent.constructChain ⟨800, 600⟩],
        .ok ({ stIdle with swapChain := ⟨1, 2⟩ }, none)) :=
  (c10_beginFrame_ood_only_rebuilds envAcquireOod stIdle
    [REvent.getExtent ⟨800, 600⟩, REvent.deviceWaitIdle,
     REvent.constructChain ⟨800, 600⟩] ⟨1, 2⟩ rfl rfl rfl).1

/-- A concrete state with a frame in progress, used by witnesses. -/
def stFrame : RendererState :=
  { isFrameStarted := true, currentFrameIndex := 0, currentImageIndex := 0,
    commandBuffers := [10, 11], swapChain := ⟨1, 2⟩, window := ⟨false⟩ }

/-- A concrete submit environment reporting a suboptimal surface, with a
benign rebuild environment (non-zero extent, matching formats). -/
def envSubmitSubopt : SubmitEnv :=
  { endCBOk := true, submitResult := .suboptimalKHR,
    extents := [⟨800, 600⟩], freshChain := ⟨1, 2⟩ }

/-- C1: evaluation at the failing input.  With a frame in progress and a
perfectly benign environment, a submit that reports `VK_SUBOPTIMAL_KHR`
makes `endFrame` rebuild the chain (the trace shows the rebuild ran to
completion) and then still throw the fatal "failed to submit command
buffers!" error, because the `result != VK_SUCCESS` check is not in an
`else` of the rebuild branch.  The rebuild is therefore not invisible to
the caller: `endFrame` never returns normally after an out-of-date or
suboptimal submit. -/
theorem c1_endFrame_suboptimal_rebuilds_then_throws :
    endFrame 2 envSubmitSubopt stFrame =
      ([REvent.getExtent ⟨800, 600⟩, REvent.deviceWaitIdle,
        REvent.constructChain ⟨800, 600⟩],
        .fatal "failed to submit command buffers!" stFrame) := rfl

/-- The renderer-member values observable after an `endFrame` call:
present both on normal return and after a thrown exception (the object
outlives the throw); absent for an `assert` abort or a spinning loop. -/
def outState : Outcome RendererState → Option RendererState
  | .ok s => some s
  | .fatal _ s => some s
  | _ => none

/-- C7: at `endFrame` (frame in progress, recording finalized, rebuild
environment able to terminate), the rebuild procedure runs exactly when
the submit status is out-of-date, or it is suboptimal, or the window's
resize flag is pending — the three triggers are each sufficient and
jointly necessary — and whenever it runs this way the resize flag is
cleared in the resulting renderer state. -/
theorem c7_endFrame_rebuild_triggers
    (F : Nat) (env : SubmitEnv) (st : RendererState)
    (h1 : st.isFrameStarted = true) (h2 : env.endCBOk = true)
    (h3 : recreateSwapChain env.extents (some st.swapChain) env.freshChain ≠ none) :
    ((env.submitResult = .errorOutOfDateKHR ∨ env.submitResult = .suboptimalKHR ∨
        st.window.framebufferResized = true) ↔
      ∃ e, REvent.constructChain e ∈ (endFrame F env st).1) ∧
    ((env.submitResult = .errorOutOfDateKHR ∨ env.submitResult = .suboptimalKHR ∨
        st.window.framebufferResized = true) →
      ∃ s, outState (endFrame F env st).2 = some s ∧
        s.window.framebufferResized = false) := by
  by_cases htrig : env.submitResult = .errorOutOfDateKHR ∨
      env.submitResult = .suboptimalKHR ∨ st.window.framebufferResized = true
  · cases hr : recreateSwapChain env.extents (some st.swapChain) env.freshChain with
    | none => exact absurd hr h3
    | some p =>
      obtain ⟨tr, sc, err⟩ := p
      obtain ⟨pre, fin, htr, _, _, _⟩ :=
        recreateSwapChain_sound env.extents (some st.swapChain) env.freshChain
          tr sc err hr
      have hmem : REvent.constructChain fin ∈ tr := by
        rw [htr]; simp
      have hend : (endFrame F env st).1 = tr ∧
          ∃ s, outState (endFrame F env st).2 = some s ∧
            s.window.framebufferResized = false := by
        unfold endFrame
        rw [h1, h2]
        simp only [Bool.true_eq_false, not_true_eq_false, if_false, if_true,
          Bool.not_true, ite_not]
        rw [if_pos htrig]
        cases err with
        | some msg =>
          simp [hr]
          exact ⟨_, rfl, rfl⟩
        | none =>
          simp only [hr]
          by_cases hsucc : env.submitResult = .success
          · simp [hsucc, finishFrame, outState]
          · simp [hsucc, outState]
      exact ⟨⟨fun _ => ⟨fin, hend.1 ▸ hmem⟩, fun _ => htrig⟩, fun _ => hend.2⟩
  · have hend : (endFrame F env st).1 = [] := by
      unfold endFrame
      rw [h1, h2]
      simp only [Bool.true_eq_false, not_true_eq_false, if_false, if_true,
        Bool.not_true, ite_not]
      rw [if_neg htrig]
      by_cases hsucc : env.submitResult = .success <;> simp [hsucc]
    refine ⟨⟨fun ht => absurd ht htrig, fun hc => ?_⟩, fun ht => absurd ht htrig⟩
    obtain ⟨e, he⟩ := hc
    rw [hend] at he
    simp at he

/-- A frame-in-progress state whose window has a pending resize
notification. -/
def stFrameResized : RendererState :=
  { isFrameStarted := true, currentFrameIndex := 0, currentImageIndex := 0,
    commandBuffers := [10, 11], swapChain := ⟨1, 2⟩, window := ⟨true⟩ }

/-- A concrete submit environment reporting plain success. -/
def envSubmitOkRe : SubmitEnv :=
  { endCBOk := true, submitResult := .success,
    extents := [⟨800, 600⟩], freshChain := ⟨1, 2⟩ }

/-- C7 witness: a successful submit with only the resize flag pending
still triggers the rebuild (the trace contains a chain construction) and
clears the flag. -/
theorem c7_endFrame_rebuild_witness :
    ((envSubmitOkRe.submitResult = .errorOutOfDateKHR ∨
        envSubmitOkRe.submitResult = .suboptimalKHR ∨
        stFrameResized.window.framebufferResized = true) ↔
      ∃ e, REvent.constructChain e ∈ (endFrame 2 envSubmitOkRe stFrameResized).1) ∧
    ((envSubmitOkRe.submitResult = .errorOutOfDateKHR ∨
        envSubmitOkRe.submitResult = .suboptimalKHR ∨
        stFrameResized.window.framebufferResized = true) →
      ∃ s, outState (endFrame 2 envSubmitOkRe stFrameResized).2 = some s ∧
        s.window.framebufferResized = false) :=
  c7_endFrame_rebuild_triggers 2 envSubmitOkRe stFrameResized rfl rfl (by decide)

/-- Whether a `beginFrame` call in this environment opens a frame (returns
a non-null buffer): acquire reported success or suboptimal, and recording
began successfully. -/
def opensFrameEnv (env : AcquireEnv) : Bool :=
  (env.acquireResult == .success || env.acquireResult == .suboptimalKHR) &&
    env.beginCBOk

/-- Recognizer for `beginFrame` calls in an operation sequence. -/
def isBeginFrameOp : RenderOp → Bool
  | .opBeginFrame _ => true
  | _ => false

/-- Recognizer for `endFrame` calls in an operation sequence. -/
def isEndFrameOp : RenderOp → Bool
  | .opEndFrame _ => true
  | _ => false

/-- Number of completed frames in an operation sequence that ran to
completion: each executed `endFrame` returned normally. -/
def countEndFrames (ops : List RenderOp) : Nat :=
  (ops.filter isEndFrameOp).length

lemma beginFrame_ok_inv (env : AcquireEnv) (st st1 : RendererState)
    (r : Option Nat) (tr : List REvent)
    (h : beginFrame env st = (tr, .ok (st1, r))) :
    st.isFrameStarted = false ∧
    st1.currentFrameIndex = st.currentFrameIndex ∧
    st1.commandBuffers = st.commandBuffers ∧
    st1.isFrameStarted = opensFrameEnv env := by
  unfold beginFrame at h
  by_cases hs : st.isFrameStarted
  · rw [if_pos hs] at h
    simp at h
  · rw [if_neg hs] at h
    by_cases hood : env.acquireResult = .errorOutOfDateKHR
    · rw [if_pos hood] at h
      cases hr : recreateSwapChain env.extents (some st.swapChain) env.freshChain with
      | none =>
        rw [hr] at h
        simp at h
      | some p =>
        obtain ⟨tr0, sc, err⟩ := p
        rw [hr] at h
        cases err with
        | some msg => simp at h
        | none =>
          simp only [Prod.mk.injEq, Outcome.ok.injEq] at h
          obtain ⟨-, h2, -⟩ := h
          subst h2
          simp only [Bool.not_eq_true] at hs
          exact ⟨hs, rfl, rfl, by simp [opensFrameEnv, hood, hs]⟩
    · rw [if_neg hood] at h
      by_cases hbad : env.acquireResult ≠ .success ∧ env.acquireResult ≠ .suboptimalKHR
      · rw [if_pos hbad] at h
        simp at h
      · rw [if_neg hbad] at h
        simp only [Bool.not_eq_true] at hs
        by_cases hcb : env.beginCBOk
        · simp only [hcb, if_true, Prod.mk.injEq, Outcome.ok.injEq] at h
          obtain ⟨-, h2, -⟩ := h
          subst h2
          refine ⟨hs, rfl, rfl, ?_⟩
          have : env.acquireResult = .success ∨ env.acquireResult = .suboptimalKHR := by
            by_cases h1 : env.acquireResult = .success
            · exact Or.inl h1
            · exact Or.inr (by tauto)
          rcases this with h1 | h1 <;> simp [opensFrameEnv, h1, hcb]
        · simp only [hcb, if_false, Bool.false_eq_true] at h
          simp at h

lemma endFrame_ok_inv (F : Nat) (env : SubmitEnv) (st st' : RendererState)
    (h : (endFrame F env st).2 = .ok st') :
    st.isFrameStarted = true ∧
    st'.isFrameStarted = false ∧
    st'.currentFrameIndex = (st.currentFrameIndex + 1) % F ∧
    st'.commandBuffers = st.commandBuffers := by
  unfold endFrame at h
  by_cases hs : st.isFrameStarted
  · rw [if_neg (by simp [hs])] at h
    by_cases hcb : env.endCBOk
    · rw [if_neg (by simp [hcb])] at h
      by_cases htrig : env.submitResult = .errorOutOfDateKHR ∨
          env.submitResult = .suboptimalKHR ∨ st.window.framebufferResized = true
      · rw [if_pos htrig] at h
        dsimp only at h
        cases hr : recreateSwapChain env.extents (some st.swapChain)
            env.freshChain with
        | none =>
          rw [hr] at h
          simp at h
        | some p =>
          obtain ⟨tr0, sc, err⟩ := p
          rw [hr] at h
          cases err with
          | some msg => simp at h
          | none =>
            dsimp only at h
            by_cases hsucc : env.submitResult = .success
            · rw [if_neg (by simp [hsucc])] at h
              simp only [Outcome.ok.injEq] at h
              subst h
              exact ⟨hs, rfl, rfl, rfl⟩
            · rw [if_pos (by simp [hsucc])] at h
              simp at h
      · rw [if_neg htrig] at h
        by_cases hsucc : env.submitResult = .success
        · rw [if_neg (by simp [hsucc])] at h
          simp only [Outcome.ok.injEq] at h
          subst h
          exact ⟨hs, rfl, rfl, rfl⟩
        · rw [if_pos (by simp [hsucc])] at h
          simp at h
    · rw [if_pos (by simp [hcb])] at h
      simp at h
  · rw [if_pos (by simp [hs])] at h
    simp at h

lemma beginRP_ok_iff (cb : Nat) (st : RendererState) :
    (∃ st', beginSwapChainRenderPass cb st = .ok st') ↔
      st.isFrameStarted = true ∧ cb = getCurentCommandBuffer st := by
  unfold beginSwapChainRenderPass
  by_cases hs : st.isFrameStarted
  · rw [if_neg (by simp [hs])]
    by_cases hcb : cb = getCurentCommandBuffer st
    · rw [if_neg (by simp [hcb])]
      simp [hs, hcb]
    · rw [if_pos hcb]
      simp [hcb]
  · rw [if_pos (by simp [hs])]
    simp [hs]

lemma endRP_ok_iff (cb : Nat) (st : RendererState) :
    (∃ st', endSwapChainRenderPass cb st = .ok st') ↔
      st.isFrameStarted = true ∧ cb = getCurentCommandBuffer st := by
  unfold endSwapChainRenderPass
  by_cases hs : st.isFrameStarted
  · rw [if_neg (by simp [hs])]
    by_cases hcb : cb = getCurentCommandBuffer st
    · rw [if_neg (by simp [hcb])]
      simp [hs, hcb]
    · rw [if_pos hcb]
      simp [hcb]
  · rw [if_pos (by simp [hs])]
    simp [hs]

lemma beginRP_ok_state (cb : Nat) (st st' : RendererState)
    (h : beginSwapChainRenderPass cb st = .ok st') :
    st' = st ∧ st.isFrameStarted = true ∧ cb = getCurentCommandBuffer st := by
  unfold beginSwapChainRenderPass at h
  by_cases hs : st.isFrameStarted
  · rw [if_neg (by simp [hs])] at h
    by_cases hcb : cb = getCurentCommandBuffer st
    · rw [if_neg (by simp [hcb])] at h
      simp only [Outcome.ok.injEq] at h
      exact ⟨h.symm, hs, hcb⟩
    · rw [if_pos hcb] at h
      simp at h
  · rw [if_pos (by simp [hs])] at h
    simp at h

lemma endRP_ok_state (cb : Nat) (st st' : RendererState)
    (h : endSwapChainRenderPass cb st = .ok st') :
    st' = st ∧ st.isFrameStarted = true ∧ cb = getCurentCommandBuffer st := by
  unfold endSwapChainRenderPass at h
  by_cases hs : st.isFrameStarted
  · rw [if_neg (by simp [hs])] at h
    by_cases hcb : cb = getCurentCommandBuffer st
    · rw [if_neg (by simp [hcb])] at h
      simp only [Outcome.ok.injEq] at h
      exact ⟨h.symm, hs, hcb⟩
    · rw [if_pos hcb] at h
      simp at h
  · rw [if_pos (by simp [hs])] at h
    simp at h

/-- Effect of one operation on the "frame in progress" book-keeping, read
off the operation alone (valid along runs in which every call succeeded). -/
def updateProg (b : Bool) : RenderOp → Bool
  | .opBeginFrame env => opensFrameEnv env
  | .opEndFrame _ => false
  | .opBeginRP _ => b
  | .opEndRP _ => b

/-- "Frame in progress" after a sequence of operations. -/
def inProg (b : Bool) : List RenderOp → Bool
  | [] => b
  | op :: rest => inProg (updateProg b op) rest

lemma inProg_append (l r : List RenderOp) :
    ∀ b, inProg b (l ++ r) = inProg (inProg b l) r := by
  induction l with
  | nil => intro b; rfl
  | cons op rest ih =>
    intro b
    simp only [List.cons_append, inProg]
    exact ih _

/-- Sequencing of outcomes: continue on success, propagate failure. -/
def andThen (o : Outcome RendererState)
    (f : RendererState → Outcome RendererState) : Outcome RendererState :=
  match o with
  | .ok s => f s
  | .assertFail m => .assertFail m
  | .fatal m s => .fatal m s
  | .stuck => .stuck

lemma runOps_cons (F : Nat) (st : RendererState) (op : RenderOp)
    (rest : List RenderOp) :
    runOps F st (op :: rest) =
      andThen (step F st op) (fun s => runOps F s rest) := by
  rw [runOps]
  cases step F st op <;> rfl

lemma runOps_append (F : Nat) (l r : List RenderOp) :
    ∀ st, runOps F st (l ++ r) =
      andThen (runOps F st l) (fun mid => runOps F mid r) := by
  induction l with
  | nil => intro st; rfl
  | cons op rest ih =>
    intro st
    rw [List.cons_append, runOps_cons, runOps_cons]
    cases step F st op with
    | ok st1 => exact ih st1
    | assertFail m => rfl
    | fatal m s => rfl
    | stuck => rfl

lemma step_beginFrame_ok (F : Nat) (env : AcquireEnv) (st st1 : RendererState)
    (h : step F st (.opBeginFrame env) = .ok st1) :
    ∃ tr r, beginFrame env st = (tr, .ok (st1, r)) := by
  unfold step at h
  dsimp only at h
  cases hbf : beginFrame env st with
  | mk tr out =>
    rw [hbf] at h
    dsimp only at h
    cases out with
    | ok p =>
      obtain ⟨st2, r⟩ := p
      simp only [Outcome.ok.injEq] at h
      exact ⟨tr, r, by rw [h]⟩
    | assertFail m => exact absurd h (by simp)
    | fatal m s => exact absurd h (by simp)
    | stuck => exact absurd h (by simp)

lemma runOps_isFrameStarted (F : Nat) :
    ∀ (ops : List RenderOp) (st st' : RendererState),
      runOps F st ops = .ok st' →
      st'.isFrameStarted = inProg st.isFrameStarted ops := by
  intro ops
  induction ops with
  | nil =>
    intro st st' h
    simp only [runOps, Outcome.ok.injEq] at h
    subst h
    rfl
  | cons op rest ih =>
    intro st st' h
    rw [runOps_cons] at h
    cases hstep : step F st op with
    | ok st1 =>
      rw [hstep] at h
      dsimp only [andThen] at h
      rw [ih st1 st' h]
      show inProg st1.isFrameStarted rest =
        inProg (updateProg st.isFrameStarted op) rest
      congr 1
      cases op with
      | opBeginFrame env =>
        obtain ⟨tr, r, hbf⟩ := step_beginFrame_ok F env st st1 hstep
        exact (beginFrame_ok_inv env st st1 r tr hbf).2.2.2
      | opBeginRP cb =>
        rw [(beginRP_ok_state cb st st1 hstep).1]
        rfl
      | opEndRP cb =>
        rw [(endRP_ok_state cb st st1 hstep).1]
        rfl
      | opEndFrame env => exact (endFrame_ok_inv F env st st1 hstep).2.1
    | assertFail m => rw [hstep] at h; exact absurd h (by simp [andThen])
    | fatal m s => rw [hstep] at h; exact absurd h (by simp [andThen])
    | stuck => rw [hstep] at h; exact absurd h (by simp [andThen])

lemma inProg_true_decomp :
    ∀ ops, inProg false ops = true →
      ∃ l env r, ops = l ++ RenderOp.opBeginFrame env :: r ∧
        opensFrameEnv env = true ∧
        ∀ op ∈ r, isBeginFrameOp op = false ∧ isEndFrameOp op = false := by
  intro ops
  induction ops using List.reverseRecOn with
  | nil => intro h; exact absurd h (by simp [inProg])
  | append_singleton l op ih =>
    intro h
    rw [inProg_append] at h
    cases op with
    | opBeginFrame env =>
      exact ⟨l, env, [], rfl, h, by simp⟩
    | opEndFrame env =>
      exact absurd h (by simp [inProg, updateProg])
    | opBeginRP cb =>
      obtain ⟨l1, env, r, hsplit, henv, hr⟩ := ih (by simpa [inProg, updateProg] using h)
      refine ⟨l1, env, r ++ [.opBeginRP cb], by rw [hsplit]; simp, henv, ?_⟩
      intro op hop
      rcases List.mem_append.mp hop with hin | hin
      · exact hr op hin
      · simp at hin
        subst hin
        exact ⟨rfl, rfl⟩
    | opEndRP cb =>
      obtain ⟨l1, env, r, hsplit, henv, hr⟩ := ih (by simpa [inProg, updateProg] using h)
      refine ⟨l1, env, r ++ [.opEndRP cb], by rw [hsplit]; simp, henv, ?_⟩
      intro op hop
      rcases List.mem_append.mp hop with hin | hin
      · exact hr op hin
      · simp at hin
        subst hin
        exact ⟨rfl, rfl⟩

lemma runOps_frame_index (F : Nat) :
    ∀ (ops : List RenderOp) (st st' : RendererState),
      runOps F st ops = .ok st' →
      st'.currentFrameIndex =
        if countEndFrames ops = 0 then st.currentFrameIndex
        else (st.currentFrameIndex + countEndFrames ops) % F := by
  intro ops
  induction ops with
  | nil =>
    intro st st' h
    simp only [runOps, Outcome.ok.injEq] at h
    subst h
    simp [countEndFrames]
  | cons op rest ih =>
    intro st st' h
    rw [runOps_cons] at h
    cases hstep : step F st op with
    | ok st1 =>
      rw [hstep] at h
      dsimp only [andThen] at h
      have hrest := ih st1 st' h
      cases op with
      | opEndFrame env =>
        have hidx := (endFrame_ok_inv F env st st1 hstep).2.2.1
        have hcount : countEndFrames (RenderOp.opEndFrame env :: rest) =
            countEndFrames rest + 1 := by
          simp [countEndFrames, List.filter, isEndFrameOp, Nat.add_comm]
        rw [hcount]
        by_cases hz : countEndFrames rest = 0
        · rw [if_neg (by omega), hrest, if_pos hz, hidx, hz]
        · rw [if_neg hz] at hrest
          rw [if_neg (by omega), hrest, hidx, Nat.mod_add_mod]
          congr 1
          omega
      | opBeginFrame env =>
        obtain ⟨tr, r, hbf⟩ := step_beginFrame_ok F env st st1 hstep
        have hidx := (beginFrame_ok_inv env st st1 r tr hbf).2.1
        have hcount : countEndFrames (RenderOp.opBeginFrame env :: rest) =
            countEndFrames rest := by
          simp [countEndFrames, List.filter, isEndFrameOp]
        rw [hcount, hrest, hidx]
      | opBeginRP cb =>
        have hcount : countEndFrames (RenderOp.opBeginRP cb :: rest) =
            countEndFrames rest := by
          simp [countEndFrames, List.filter, isEndFrameOp]
        rw [hcount, hrest, (beginRP_ok_state cb st st1 hstep).1]
      | opEndRP cb =>
        have hcount : countEndFrames (RenderOp.opEndRP cb :: rest) =
            countEndFrames rest := by
          simp [countEndFrames, List.filter, isEndFrameOp]
        rw [hcount, hrest, (endRP_ok_state cb st st1 hstep).1]
    | assertFail m => rw [hstep] at h; exact absurd h (by simp [andThen])
    | fatal m s => rw [hstep] at h; exact absurd h (by simp [andThen])
    | stuck => rw [hstep] at h; exact absurd h (by simp [andThen])

lemma beginRP_reject (cb : Nat) (st : RendererState)
    (h : ¬(st.isFrameStarted = true ∧ cb = getCurentCommandBuffer st)) :
    ∃ m, beginSwapChainRenderPass cb st = .assertFail m := by
  unfold beginSwapChainRenderPass
  by_cases hs : st.isFrameStarted
  · rw [if_neg (by simp [hs])]
    have hcb : cb ≠ getCurentCommandBuffer st := by tauto
    rw [if_pos hcb]
    exact ⟨_, rfl⟩
  · rw [if_pos (by simp [hs])]
    exact ⟨_, rfl⟩

lemma endRP_reject (cb : Nat) (st : RendererState)
    (h : ¬(st.isFrameStarted = true ∧ cb = getCurentCommandBuffer st)) :
    ∃ m, endSwapChainRenderPass cb st = .assertFail m := by
  unfold endSwapChainRenderPass
  by_cases hs : st.isFrameStarted
  · rw [if_neg (by simp [hs])]
    have hcb : cb ≠ getCurentCommandBuffer st := by tauto
    rw [if_pos hcb]
    exact ⟨_, rfl⟩
  · rw [if_pos (by simp [hs])]
    exact ⟨_, rfl⟩

/-- C3: the render-pass calls are permitted exactly when a frame is in
progress and the supplied buffer is the current frame slot's buffer; any
other call fails the guarding assertion.  Along any fully successful call
sequence ending in `beginSwapChainRenderPass` from an idle start, the
sequence decomposes so that a frame-opening `beginFrame` precedes it with
no `endFrame` (or further `beginFrame`) in between, and the buffer equals
the current slot's buffer at that point. -/
theorem c3_renderpass_only_in_frame (F : Nat) (st : RendererState) (cb : Nat) :
    ((∃ st', beginSwapChainRenderPass cb st = .ok st') ↔
      st.isFrameStarted = true ∧ cb = getCurentCommandBuffer st) ∧
    ((∃ st', endSwapChainRenderPass cb st = .ok st') ↔
      st.isFrameStarted = true ∧ cb = getCurentCommandBuffer st) ∧
    (¬(st.isFrameStarted = true ∧ cb = getCurentCommandBuffer st) →
      (∃ m, beginSwapChainRenderPass cb st = .assertFail m) ∧
      (∃ m, endSwapChainRenderPass cb st = .assertFail m)) ∧
    (∀ ops st0 st', st0.isFrameStarted = false →
      runOps F st0 (ops ++ [.opBeginRP cb]) = .ok st' →
      ∃ l env r mid, ops = l ++ RenderOp.opBeginFrame env :: r ∧
        opensFrameEnv env = true ∧
        (∀ op ∈ r, isBeginFrameOp op = false ∧ isEndFrameOp op = false) ∧
        runOps F st0 ops = .ok mid ∧ cb = getCurentCommandBuffer mid) := by
  refine ⟨beginRP_ok_iff cb st, endRP_ok_iff cb st,
    fun h => ⟨beginRP_reject cb st h, endRP_reject cb st h⟩, ?_⟩
  intro ops st0 st' h0 hrun
  rw [runOps_append] at hrun
  cases hmid : runOps F st0 ops with
  | ok mid =>
    rw [hmid] at hrun
    dsimp only [andThen] at hrun
    rw [runOps_cons] at hrun
    cases hstep : step F mid (.opBeginRP cb) with
    | ok s1 =>
      have hok := beginRP_ok_state cb mid s1 hstep
      have hfs : mid.isFrameStarted = inProg false ops := by
        have hh := runOps_isFrameStarted F ops st0 mid hmid
        rw [h0] at hh
        exact hh
      obtain ⟨l, env, r, hsplit, henv, hr⟩ :=
        inProg_true_decomp ops (by rw [← hfs]; exact hok.2.1)
      exact ⟨l, env, r, mid, hsplit, henv, hr, rfl, hok.2.2⟩
    | assertFail m => rw [hstep] at hrun; exact absurd hrun (by simp [andThen])
    | fatal m s => rw [hstep] at hrun; exact absurd hrun (by simp [andThen])
    | stuck => rw [hstep] at hrun; exact absurd hrun (by simp [andThen])
  | assertFail m => rw [hmid] at hrun; exact absurd hrun (by simp [andThen])
  | fatal m s => rw [hmid] at hrun; exact absurd hrun (by simp [andThen])
  | stuck => rw [hmid] at hrun; exact absurd hrun (by simp [andThen])

/-- C3 witness: with a frame in progress and the current slot's buffer
(handle 10), `beginSwapChainRenderPass` is permitted. -/
theorem c3_renderpass_witness :
    ∃ st', beginSwapChainRenderPass 10 stFrame = .ok st' :=
  (c3_renderpass_only_in_frame 2 stFrame 10).1.mpr ⟨rfl, rfl⟩

/-- C4: every `endFrame` that returns normally advances
`currentFrameIndex` by exactly one modulo `F`; consequently along any
fully successful call sequence starting at index 0 the final index is the
number of completed frames modulo `F` — in particular it is back to 0
after exactly `F` completed frames — regardless of which rebuilds the
environments of those calls triggered. -/
theorem c4_frame_index_cycles (F : Nat) :
    (∀ env st st', (endFrame F env st).2 = .ok st' →
      st'.currentFrameIndex = (st.currentFrameIndex + 1) % F) ∧
    (∀ ops st0 st', runOps F st0 ops = .ok st' → st0.currentFrameIndex = 0 →
      st'.currentFrameIndex = countEndFrames ops % F) ∧
    (∀ ops st0 st', runOps F st0 ops = .ok st' → st0.currentFrameIndex = 0 →
      countEndFrames ops = F → st'.currentFrameIndex = 0) := by
  have hmain : ∀ ops st0 st', runOps F st0 ops = .ok st' →
      st0.currentFrameIndex = 0 →
      st'.currentFrameIndex = countEndFrames ops % F := by
    intro ops st0 st' h h0
    have hh := runOps_frame_index F ops st0 st' h
    rw [h0] at hh
    by_cases hz : countEndFrames ops = 0
    · rw [hz]
      rw [if_pos hz] at hh
      simpa using hh
    · rw [if_neg hz] at hh
      simpa using hh
  refine ⟨?_, hmain, ?_⟩
  · intro env st st' h
    exact (endFrame_ok_inv F env st st' h).2.2.1
  · intro ops st0 st' h h0 hF
    rw [hmain ops st0 st' h h0, hF, Nat.mod_self]

/-- A submit environment for a plain successful frame. -/
def envSubmitOk : SubmitEnv :=
  { endCBOk := true, submitResult := .success,
    extents := [⟨800, 600⟩], freshChain := ⟨1, 2⟩ }

/-- Two successfully completed frames. -/
def opsTwoFrames : List RenderOp :=
  [.opBeginFrame envAcquireOk, .opEndFrame envSubmitOk,
   .opBeginFrame envAcquireOk, .opEndFrame envSubmitOk]

/-- C4 witness: with `F = 2`, running two completed frames from the idle
state at index 0 brings the index back to 0. -/
theorem c4_frame_index_witness :
    ({ isFrameStarted := false, currentFrameIndex := 0, currentImageIndex := 1,
       commandBuffers := [10, 11], swapChain := ⟨1, 2⟩, window := ⟨false⟩ }
      : RendererState).currentFrameIndex = 0 :=
  (c4_frame_index_cycles 2).2.2 opsTwoFrames stIdle
    { isFrameStarted := false, currentFrameIndex := 0, currentImageIndex := 1,
      commandBuffers := [10, 11], swapChain := ⟨1, 2⟩, window := ⟨false⟩ }
    rfl rfl rfl

lemma rotY_zero_id : rotYMat 0 1 = 1 := by
  ext i j
  fin_cases i <;> fin_cases j <;>
    simp [rotYMat, Matrix.one_apply, Matrix.vecHead, Matrix.vecTail]

lemma rotX_zero_id : rotXMat 0 1 = 1 := by
  ext i j
  fin_cases i <;> fin_cases j <;>
    simp [rotXMat, Matrix.one_apply, Matrix.vecHead, Matrix.vecTail]

lemma rotZ_zero_id : rotZMat 0 1 = 1 := by
  ext i j
  fin_cases i <;> fin_cases j <;>
    simp [rotZMat, Matrix.one_apply, Matrix.vecHead, Matrix.vecTail]

lemma translate_mul_scale :
    translateMat ⟨0, 1/2, 5/2⟩ * scaleMat ⟨3, 3, 3⟩ =
      !![3, 0, 0, 0; 0, 3, 0, 1/2; 0, 0, 3, 5/2; 0, 0, 0, 1] := by
  ext i j
  fin_cases i <;> fin_cases j <;>
    norm_num [translateMat, scaleMat, Matrix.mul_apply, Fin.sum_univ_four,
      Matrix.vecHead, Matrix.vecTail]

/-- C8: for any sine/cosine model (so in particular the exact one), the
vase object's model matrix — Translate · Ry · Rx · Rz · Scale with
translation (0, 1/2, 5/2), uniform scale 3 and zero rotation — has
upper-left 3×3 part equal to 3·Identity and translation column
(0, 1/2, 5/2, 1). -/
theorem c8_vase_model_matrix (sn cs : ℚ → ℚ)
    (hs : sn 0 = 0) (hc : cs 0 = 1) :
    (∀ i j : Fin 3,
      TransformComponent.mat4 sn cs vaseTransform i.castSucc j.castSucc =
        if i = j then 3 else 0) ∧
    TransformComponent.mat4 sn cs vaseTransform 0 3 = 0 ∧
    TransformComponent.mat4 sn cs vaseTransform 1 3 = 1/2 ∧
    TransformComponent.mat4 sn cs vaseTransform 2 3 = 5/2 ∧
    TransformComponent.mat4 sn cs vaseTransform 3 3 = 1 := by
  have hrot : vaseTransform.rotation = ⟨0, 0, 0⟩ := rfl
  have hm : TransformComponent.mat4 sn cs vaseTransform =
      !![3, 0, 0, 0; 0, 3, 0, 1/2; 0, 0, 3, 5/2; 0, 0, 0, 1] := by
    unfold TransformComponent.mat4
    rw [hrot]
    show translateMat vaseTransform.translation * rotYMat (sn 0) (cs 0) *
        rotXMat (sn 0) (cs 0) * rotZMat (sn 0) (cs 0) *
        scaleMat vaseTransform.scale = _
    rw [hs, hc, rotY_zero_id, rotX_zero_id, rotZ_zero_id, mul_one, mul_one,
      mul_one]
    exact translate_mul_scale
  rw [hm]
  refine ⟨?_, by norm_num, by norm_num, by norm_num, by norm_num⟩
  intro i j
  fin_cases i <;> fin_cases j <;> rfl

/-- C8 witness: with sine 0 and cosine 1 at angle 0, the vase matrix's
translation column is (0, 1/2, 5/2, 1). -/
theorem c8_vase_matrix_witness :
    TransformComponent.mat4 (fun _ => 0) (fun _ => 1) vaseTransform 0 3 = 0 ∧
    TransformComponent.mat4 (fun _ => 0) (fun _ => 1) vaseTransform 1 3 = 1/2 ∧
    TransformComponent.mat4 (fun _ => 0) (fun _ => 1) vaseTransform 2 3 = 5/2 ∧
    TransformComponent.mat4 (fun _ => 0) (fun _ => 1) vaseTransform 3 3 = 1 :=
  (c8_vase_model_matrix (fun _ => 0) (fun _ => 1) rfl rfl).2

lemma counterAfter_eq (n : Nat) : counterAfter n = n % uintMod := by
  induction n with
  | zero => rfl
  | succ k ih =>
    show (counterAfter k + 1) % uintMod = (k + 1) % uintMod
    rw [ih, Nat.mod_add_mod]

lemma idOfCreation_eq (k : Nat) : idOfCreation k = k % uintMod := by
  show counterAfter k = k % uintMod
  exact counterAfter_eq k

/-- C9 counterexample: the id counter is C++ `unsigned int` arithmetic, so
after 2^32 creations it has wrapped and the 2^32-th call returns the same
id as the very first call — ids are not unique for arbitrary numbers of
creations. -/
theorem c9_id_reuse_counterexample :
    idOfCreation 4294967296 = idOfCreation 0 ∧ (0 : Nat) ≠ 4294967296 := by
  constructor
  · rw [idOfCreation_eq, idOfCreation_eq]
    norm_num [uintMod]
  · norm_num

/-- C9 (amended): among the first 2^32 creations of a process the ids
returned by `createGameObject` are strictly increasing and never reused;
beyond that the 32-bit unsigned counter wraps. -/
theorem c9_ids_unique_before_wrap :
    (∀ i j, i < j → j < uintMod → idOfCreation i < idOfCreation j) ∧
    (∀ i j, i < uintMod → j < uintMod → idOfCreation i = idOfCreation j →
      i = j) := by
  constructor
  · intro i j hij hj
    rw [idOfCreation_eq, idOfCreation_eq, Nat.mod_eq_of_lt (lt_trans hij hj),
      Nat.mod_eq_of_lt hj]
    exact hij
  · intro i j hi hj h
    rwa [idOfCreation_eq, idOfCreation_eq, Nat.mod_eq_of_lt hi,
      Nat.mod_eq_of_lt hj] at h

/-- C9 witness: the first creation's id is below the sixth creation's. -/
theorem c9_ids_monotone_witness : idOfCreation 0 < idOfCreation 5 :=
  c9_ids_unique_before_wrap.1 0 5 (by decide) (by decide)
